import Mathlib

/-!
Shallow embedding of the lending & fines engine of the library management
system (CLI modules `loans.py`, `fines.py`, `borrowers.py` and the FastAPI
routers `backend/routers/loans.py`, `backend/routers/fines.py`,
`backend/routers/borrowers.py`).

Dates are modelled as integers counting days (`DATEDIFF(a, b)` is `a - b`,
`today + timedelta(days=14)` is `today + 14`).  Currency amounts are exact
rationals: the Python code computes `late_days * 0.25`, and every such value
has at most two decimal digits, so the `DECIMAL(10,2)` column stores it
exactly.  The relational store is a record of lists of rows; SQL queries
become list traversals.  Operations that raise business errors return
`Except`; an `Except.error` result models "the transaction was rolled back,
nothing was written".
-/

abbrev Date := Int

structure Book where
  isbn : String
  title : String
deriving Repr, DecidableEq

/-- A BORROWER row.  `Card_id` is `VARCHAR(20)` in the schema
(`init_db.py`), so card identifiers are strings. -/
structure Borrower where
  cardId : String
  ssn : String
  bname : String
  address : String
  phone : String
deriving Repr, DecidableEq

/-- A BOOK_LOANS row.  `Date_in = none` means the loan is OPEN. -/
structure Loan where
  loanId : Nat
  isbn : String
  cardId : String
  dateOut : Date
  dueDate : Date
  dateIn : Option Date
deriving Repr, DecidableEq

/-- A FINES row (`Loan_id` is the primary key of FINES). -/
structure Fine where
  loanId : Nat
  amount : ℚ
  paid : Bool
deriving Repr, DecidableEq

/-- The relational store.  `nextLoanId` models the AUTO_INCREMENT counter
of `BOOK_LOANS.Loan_id` (`cursor.lastrowid` after an insert). -/
structure DB where
  books : List Book
  borrowers : List Borrower
  loans : List Loan
  fines : List Fine
  nextLoanId : Nat
deriving Repr, DecidableEq

inductive CheckoutError where
  | borrowerNotFound
  | unpaidFines
  | maxActiveLoans
  | bookUnavailable
  | bookNotFound
deriving Repr, DecidableEq

inductive CheckinError where
  | loanNotFoundOrClosed
deriving Repr, DecidableEq

inductive FineError where
  | booksStillOut
deriving Repr, DecidableEq

inductive BorrowerError where
  | validation
  | duplicateIdentity
deriving Repr, DecidableEq

/-- COUNT(*) of the join `BOOK_LOANS bl INNER JOIN FINES f ON
bl.Loan_id = f.Loan_id WHERE bl.Card_id = cid AND f.Paid = 0`
(`loans.py` lines 69-74, `backend/routers/loans.py` lines 49-54). -/
def unpaidFineCount (cid : String) (db : DB) : Nat :=
  (db.loans.map (fun l =>
    if l.cardId == cid then
      (db.fines.filter (fun f => f.loanId == l.loanId && f.paid == false)).length
    else 0)).sum

/-- COUNT(*) of `BOOK_LOANS WHERE Card_id = cid AND Date_in IS NULL`
(`loans.py` lines 80-83). -/
def activeLoanCount (cid : String) (db : DB) : Nat :=
  (db.loans.filter (fun l => l.cardId == cid && l.dateIn.isNone)).length

/-- Whether `SELECT Loan_id FROM BOOK_LOANS WHERE Isbn = isbn AND
Date_in IS NULL` returns a row (`loans.py` lines 89-92). -/
def bookHasOpenLoan (isbn : String) (db : DB) : Bool :=
  db.loans.any (fun l => l.isbn == isbn && l.dateIn.isNone)

/-- The loan row inserted by a successful checkout:
`Date_out = today`, `Due_date = today + 14 days`, `Date_in = NULL`. -/
def newLoan (lid : Nat) (isbn cid : String) (today : Date) : Loan :=
  { loanId := lid, isbn := isbn, cardId := cid,
    dateOut := today, dueDate := today + 14, dateIn := none }

/-- `checkout_book` of the FastAPI router `backend/routers/loans.py`
(lines 24-120): five sequenced checks (borrower exists, unpaid fines,
active-loan count, availability, book exists), then the insert.  The router
reads the wall clock for the loan dates (`today = date.today()`, line 91);
the `today` argument here stands for that wall-clock value. -/
def checkout_api (isbn cid : String) (today : Date) (db : DB) :
    Except CheckoutError (Nat × DB) :=
  if !(db.borrowers.any (fun b => b.cardId == cid)) then
    .error .borrowerNotFound
  else if 0 < unpaidFineCount cid db then
    .error .unpaidFines
  else if 3 ≤ activeLoanCount cid db then
    .error .maxActiveLoans
  else if bookHasOpenLoan isbn db then
    .error .bookUnavailable
  else if !(db.books.any (fun b => b.isbn == isbn)) then
    .error .bookNotFound
  else
    .ok (db.nextLoanId,
      { db with loans := db.loans ++ [newLoan db.nextLoanId isbn cid today],
                nextLoanId := db.nextLoanId + 1 })

/-- `checkout_book` of the CLI module `loans.py` (lines 25-115): only three
checks (unpaid fines, active-loan count, availability) — no borrower- or
book-existence check — then the insert.  `todayArg` is the optional `today`
parameter; `sysToday` is the wall-clock value `date.today()` used when the
parameter is `None` (lines 58-59).  The Python type hint for `card_id` is
`int`, but the column is `VARCHAR(20)` and the value is used only as an
equality key, so we keep the schema's string type. -/
def checkout_book (isbn cid : String) (todayArg : Option Date)
    (sysToday : Date) (db : DB) : Except CheckoutError (Nat × DB) :=
  let today := todayArg.getD sysToday
  if 0 < unpaidFineCount cid db then
    .error .unpaidFines
  else if 3 ≤ activeLoanCount cid db then
    .error .maxActiveLoans
  else if bookHasOpenLoan isbn db then
    .error .bookUnavailable
  else
    .ok (db.nextLoanId,
      { db with loans := db.loans ++ [newLoan db.nextLoanId isbn cid today],
                nextLoanId := db.nextLoanId + 1 })

/-- `checkin_book` of the router `backend/routers/loans.py` (lines 196-248):
reject unless a row with this `Loan_id` and `Date_in IS NULL` exists, then
`UPDATE ... SET Date_in = today WHERE Loan_id = lid AND Date_in IS NULL`.
`sysToday` stands for the router's `date.today()` (line 222). -/
def checkin_book (lid : Nat) (sysToday : Date) (db : DB) :
    Except CheckinError DB :=
  if db.loans.any (fun l => l.loanId == lid && l.dateIn.isNone) then
    .ok { db with loans := db.loans.map (fun l =>
            if l.loanId == lid && l.dateIn.isNone then
              { l with dateIn := some sysToday }
            else l) }
  else
    .error .loanNotFoundOrClosed

/-- `checkin_loans` of the CLI module `loans.py` (lines 195-241): empty list
returns immediately; otherwise one `UPDATE ... SET Date_in = today WHERE
Loan_id IN (...) AND Date_in IS NULL`.  Ids that name no OPEN loan are
silently skipped. -/
def checkin_loans (loanIds : List Nat) (todayArg : Option Date)
    (sysToday : Date) (db : DB) : DB :=
  if loanIds.isEmpty then db
  else
    let today := todayArg.getD sysToday
    { db with loans := db.loans.map (fun l =>
        if loanIds.contains l.loanId && l.dateIn.isNone then
          { l with dateIn := some today }
        else l) }

/-- The `late_days` CASE expression of `update_fines` (`fines.py` lines
50-62): a closed loan returned after its due date is late by
`Date_in - Due_date` days, an open loan past its due date is late by
`today - Due_date` days, otherwise 0. -/
def lateDays (today : Date) (l : Loan) : Int :=
  match l.dateIn with
  | some din => if l.dueDate < din then din - l.dueDate else 0
  | none => if l.dueDate < today then today - l.dueDate else 0

/-- `Fine_amt = late_days * 0.25` (`fines.py` line 69). -/
def fineAmt (ld : Int) : ℚ := (ld : ℚ) * (25 / 100)

/-- Lookup of the FINES row with a given loan id (`SELECT Paid FROM FINES
WHERE Loan_id = n`, `fines.py` line 72; `Loan_id` is the primary key of
FINES, so at most one row matches and the first match is canonical). -/
def fineFor (n : Nat) : List Fine → Option Fine
  | [] => none
  | f :: fs => if f.loanId = n then some f else fineFor n fs

/-- The per-overdue-loan body of `update_fines` (`fines.py` lines 67-87):
if no FINES row exists for the loan, insert one with `Paid = 0`; if one
exists with `Paid = 0`, overwrite its amount; if `Paid = 1`, do nothing.
Loans with `late_days ≤ 0` are filtered out by the SQL `HAVING` clause,
modelled by the outer guard. -/
def applyFine (today : Date) (fs : List Fine) (l : Loan) : List Fine :=
  if 0 < lateDays today l then
    match fineFor l.loanId fs with
    | none => fs ++ [{ loanId := l.loanId,
                       amount := fineAmt (lateDays today l), paid := false }]
    | some f =>
      if f.paid then fs
      else fs.map (fun g =>
        if g.loanId = l.loanId then
          { g with amount := fineAmt (lateDays today l) }
        else g)
  else fs

/-- The fine recomputation sweep shared by `fines.py` `update_fines`
(lines 15-99) and `backend/routers/fines.py` `update_fines` (lines 19-100):
iterate over every overdue loan and apply the insert/update/skip rule. -/
def recomputeFines (today : Date) (db : DB) : DB :=
  { db with fines := db.loans.foldl (applyFine today) db.fines }

/-- `update_fines` of the CLI module `fines.py`: `today` is an optional
parameter defaulting to the wall clock (`sysToday`). -/
def update_fines (todayArg : Option Date) (sysToday : Date) (db : DB) : DB :=
  recomputeFines (todayArg.getD sysToday) db

/-- `update_fines` of the router `backend/routers/fines.py`: the endpoint
takes no date argument and always uses `date.today()` (line 30), modelled
by `sysToday`. -/
def update_fines_api (sysToday : Date) (db : DB) : DB :=
  recomputeFines sysToday db

/-- COUNT(*) of unpaid fines of this borrower whose loan is still out
(`fines.py` lines 192-200): join of BOOK_LOANS and FINES restricted to
`Card_id = cid`, `Paid = 0`, `Date_in IS NULL`. -/
def unpaidOpenFineCount (cid : String) (db : DB) : Nat :=
  (db.loans.map (fun l =>
    if l.cardId == cid && l.dateIn.isNone then
      (db.fines.filter (fun f => f.loanId == l.loanId && f.paid == false)).length
    else 0)).sum

/-- `pay_all_fines` of the CLI module `fines.py` (lines 163-226): if any
unpaid fine of this borrower belongs to a loan that is still out, raise
`BooksStillOutError` and write nothing; otherwise `UPDATE FINES ... SET
Paid = 1` on every fine row joined to a returned loan of this borrower
with `Paid = 0`. -/
def pay_all_fines (cid : String) (db : DB) : Except FineError DB :=
  if 0 < unpaidOpenFineCount cid db then
    .error .booksStillOut
  else
    .ok { db with fines := db.fines.map (fun f =>
      if f.paid == false &&
         db.loans.any (fun l =>
           l.loanId == f.loanId && l.cardId == cid && l.dateIn.isSome) then
        { f with paid := true }
      else f) }

/-- A BORROWER row of the CLI module `borrowers.py`, whose `create_borrower`
treats `Card_id` as an integer (`MAX(Card_id) + 1`). -/
structure CliBorrower where
  cardId : Nat
  ssn : String
  bname : String
  address : String
  phone : String
deriving Repr, DecidableEq

/-- `create_borrower` of the CLI module `borrowers.py` (lines 14-78):
validate non-empty fields, reject a duplicate SSN, then allocate
`Card_id = MAX(Card_id) + 1` (1 when the table is empty, since SQL `MAX`
of an empty table is NULL and `(result or 0) + 1` yields 1). -/
def cli_create_borrower (ssn bname address phone : String)
    (tbl : List CliBorrower) : Except BorrowerError (Nat × List CliBorrower) :=
  if ssn = "" || bname = "" || address = "" || phone = "" then
    .error .validation
  else if tbl.any (fun b => b.ssn == ssn) then
    .error .duplicateIdentity
  else
    let newId := (tbl.map (fun b => b.cardId)).foldl max 0 + 1
    .ok (newId, tbl ++ [{ cardId := newId, ssn := ssn, bname := bname,
                          address := address, phone := phone }])

/-- Numeric value of a string of decimal digits (Python's `int(...)`). -/
def digitsToNat (cs : List Char) : Nat :=
  cs.foldl (fun a c => 10 * a + (c.toNat - '0'.toNat)) 0

/-- The suffix extracted by the regular expression `^ID[0-9]{6}$` of
`generate_next_card_id` (`backend/routers/borrowers.py` lines 38, 50):
`some n` when the card id is the literal tag `ID` followed by exactly six
digits with numeric value `n`, `none` otherwise. -/
def cardSuffix (s : String) : Option Nat :=
  match s.data with
  | 'I' :: 'D' :: rest =>
    if rest.length = 6 && rest.all Char.isDigit then some (digitsToNat rest)
    else none
  | _ => none

/-- Python's `f"ID{n:06d}"` padding: the decimal digits of `n`, left-padded
with zeros to at least six characters. -/
def pad6 (n : Nat) : String :=
  let s := toString n
  if s.length < 6 then String.mk (List.replicate (6 - s.length) '0') ++ s
  else s

/-- `generate_next_card_id` of `backend/routers/borrowers.py` (lines 23-57):
scan the card ids matching `^ID[0-9]{6}$`; if none match, return
`"ID000001"`; otherwise take the maximum numeric suffix, add one and format
as `ID` plus the zero-padded number. -/
def generate_next_card_id (cards : List String) : String :=
  match cards.filterMap cardSuffix with
  | [] => "ID000001"
  | n :: rest => "ID" ++ pad6 ((n :: rest).foldl max 0 + 1)

/-- `create_borrower` of the router `backend/routers/borrowers.py`
(lines 60-155): validate non-empty fields, reject a duplicate SSN (409),
allocate the next tagged card id, insert the row. -/
def api_create_borrower (ssn bname address phone : String) (db : DB) :
    Except BorrowerError (String × DB) :=
  if ssn = "" || bname = "" || address = "" || phone = "" then
    .error .validation
  else if db.borrowers.any (fun b => b.ssn == ssn) then
    .error .duplicateIdentity
  else
    let newId := generate_next_card_id (db.borrowers.map (fun b => b.cardId))
    .ok (newId, { db with borrowers := db.borrowers ++
      [{ cardId := newId, ssn := ssn, bname := bname,
         address := address, phone := phone }] })

/-- Rounding a currency value to two decimal places, the `DECIMAL(10,2)`
storage semantics the specification appeals to. -/
def round2 (q : ℚ) : ℚ := (round (q * 100) : ℚ) / 100

/-! ### Concrete stores used by the witnesses and counterexamples -/

/-- The empty store; `nextLoanId = 1` because MySQL AUTO_INCREMENT starts
at 1. -/
def emptyDB : DB :=
  { books := [], borrowers := [], loans := [], fines := [], nextLoanId := 1 }

/-- A borrower row with placeholder contact fields. -/
def mkBorrower (cid ssn : String) : Borrower :=
  { cardId := cid, ssn := ssn, bname := "N", address := "A", phone := "P" }

/-- Store with one borrower whose closed loan 1 carries an unpaid fine. -/
def dbUnpaid : DB :=
  { books := [{ isbn := "X", title := "T" }, { isbn := "B1", title := "T1" }],
    borrowers := [mkBorrower "ID000001" "s1"],
    loans := [{ loanId := 1, isbn := "B1", cardId := "ID000001",
                dateOut := 0, dueDate := 14, dateIn := some 20 }],
    fines := [{ loanId := 1, amount := 3/2, paid := false }],
    nextLoanId := 2 }

/-- Store with one borrower holding three open loans and no fines. -/
def dbMaxed : DB :=
  { books := [{ isbn := "X", title := "T" }],
    borrowers := [mkBorrower "ID000001" "s1"],
    loans := [{ loanId := 1, isbn := "B1", cardId := "ID000001",
                dateOut := 0, dueDate := 14, dateIn := none },
              { loanId := 2, isbn := "B2", cardId := "ID000001",
                dateOut := 0, dueDate := 14, dateIn := none },
              { loanId := 3, isbn := "B3", cardId := "ID000001",
                dateOut := 0, dueDate := 14, dateIn := none }],
    fines := [],
    nextLoanId := 4 }

/-- Store where book "X" is out to a second borrower. -/
def dbUnavailable : DB :=
  { books := [{ isbn := "X", title := "T" }],
    borrowers := [mkBorrower "ID000001" "s1", mkBorrower "ID000002" "s2"],
    loans := [{ loanId := 1, isbn := "X", cardId := "ID000002",
                dateOut := 0, dueDate := 14, dateIn := none }],
    fines := [],
    nextLoanId := 2 }

/-- Store with one borrower and an empty catalog. -/
def dbNoBook : DB :=
  { books := [], borrowers := [mkBorrower "ID000001" "s1"],
    loans := [], fines := [], nextLoanId := 1 }

/-- Store where a checkout of "X" by ID000001 succeeds. -/
def dbReady : DB :=
  { books := [{ isbn := "X", title := "T" }],
    borrowers := [mkBorrower "ID000001" "s1"],
    loans := [], fines := [], nextLoanId := 1 }

/-- The ready store after the successful checkout of "X" by ID000001 on
day 5. -/
def dbReadyAfter : DB :=
  { books := [{ isbn := "X", title := "T" }],
    borrowers := [mkBorrower "ID000001" "s1"],
    loans := [newLoan 1 "X" "ID000001" 5], fines := [], nextLoanId := 2 }

/-- Store where borrower "B" has an unpaid fine on a closed loan and a
fine-free open loan, so the payment gate passes. -/
def dbPayable : DB :=
  { books := [],
    borrowers := [],
    loans := [{ loanId := 1, isbn := "B1", cardId := "B",
                dateOut := 0, dueDate := 14, dateIn := some 20 },
              { loanId := 2, isbn := "B2", cardId := "B",
                dateOut := 0, dueDate := 50, dateIn := none }],
    fines := [{ loanId := 1, amount := 3/2, paid := false }],
    nextLoanId := 3 }

/-- The payable store after `payAll` for borrower "B": the single unpaid
fine on the closed loan 1 is now paid. -/
def dbPayablePaid : DB :=
  { books := [],
    borrowers := [],
    loans := [{ loanId := 1, isbn := "B1", cardId := "B",
                dateOut := 0, dueDate := 14, dateIn := some 20 },
              { loanId := 2, isbn := "B2", cardId := "B",
                dateOut := 0, dueDate := 50, dateIn := none }],
    fines := [{ loanId := 1, amount := 3/2, paid := true }],
    nextLoanId := 3 }

/-- The loan of the stale-paid-fine counterexample: closed five days late. -/
def staleLoan : Loan :=
  { loanId := 1, isbn := "B1", cardId := "B",
    dateOut := 0, dueDate := 14, dateIn := some 19 }

/-- Store whose only loan is five days late while its fine is already paid
with a smaller amount (reachable: the fine accrued to 0.75 while the loan
was open, the loan was returned later, and `payAll` ran before the next
recomputation sweep). -/
def dbStalePaid : DB :=
  { books := [], borrowers := [], loans := [staleLoan],
    fines := [{ loanId := 1, amount := 3/4, paid := true }],
    nextLoanId := 2 }

/-- Store with one open overdue loan (due day 14) and no fine rows yet. -/
def dbOverdueOpen : DB :=
  { books := [], borrowers := [], loans :=
      [{ loanId := 1, isbn := "B1", cardId := "B",
         dateOut := 0, dueDate := 14, dateIn := none }],
    fines := [], nextLoanId := 2 }

/-- Store with one closed loan whose fine is paid, plus an open loan of a
different borrower, used by the frozen-paid-fine witness. -/
def dbPaidFine : DB :=
  { books := [], borrowers := [], loans :=
      [{ loanId := 1, isbn := "B1", cardId := "B",
         dateOut := 0, dueDate := 14, dateIn := some 19 }],
    fines := [{ loanId := 1, amount := 5/4, paid := true }],
    nextLoanId := 2 }

/-- Store with loan 1 closed and loan 2 open, used by the check-in
witness. -/
def dbCheckin : DB :=
  { books := [], borrowers := [], loans :=
      [{ loanId := 1, isbn := "B1", cardId := "B",
         dateOut := 0, dueDate := 14, dateIn := some 10 },
       { loanId := 2, isbn := "B2", cardId := "B",
         dateOut := 0, dueDate := 14, dateIn := none }],
    fines := [], nextLoanId := 3 }

/-! ### General helper lemmas -/

theorem sum_map_pos {α : Type} (g : α → Nat) :
    ∀ L : List α, 0 < (L.map g).sum ↔ ∃ x ∈ L, 0 < g x
  | [] => by simp
  | a :: L => by
    simp only [List.map_cons, List.sum_cons, List.mem_cons]
    constructor
    · intro h
      rcases Nat.lt_or_ge 0 (g a) with ha | ha
      · exact ⟨a, Or.inl rfl, ha⟩
      · have hL : 0 < (L.map g).sum := by omega
        rcases (sum_map_pos g L).1 hL with ⟨x, hm, hx⟩
        exact ⟨x, Or.inr hm, hx⟩
    · rintro ⟨x, hm | hm, hx⟩
      · subst hm; omega
      · have := (sum_map_pos g L).2 ⟨x, hm, hx⟩
        omega

theorem filter_length_pos {α : Type} (p : α → Bool) (L : List α) :
    0 < (L.filter p).length ↔ ∃ x ∈ L, p x := by
  rw [← List.countP_eq_length_filter]
  exact List.countP_pos_iff

/-- Positivity of the two-table join count shared by the unpaid-fine gates:
the count is positive exactly when some loan passing the filter has an
unpaid fine. -/
theorem joinUnpaid_pos_iff (c : Loan → Bool) (loans : List Loan)
    (fines : List Fine) :
    (0 < (loans.map (fun l => if c l then
        (fines.filter (fun f => f.loanId == l.loanId && f.paid == false)).length
      else 0)).sum) ↔
      ∃ l ∈ loans, c l = true ∧
        ∃ f ∈ fines, f.loanId = l.loanId ∧ f.paid = false := by
  rw [sum_map_pos]
  constructor
  · rintro ⟨l, hl, hpos⟩
    by_cases hc : c l = true
    · rw [if_pos hc] at hpos
      rcases (filter_length_pos _ _).1 hpos with ⟨f, hf, hpf⟩
      simp only [Bool.and_eq_true, beq_iff_eq] at hpf
      exact ⟨l, hl, hc, f, hf, hpf.1, by simpa using hpf.2⟩
    · rw [if_neg hc] at hpos; omega
  · rintro ⟨l, hl, hc, f, hf, hid, hp⟩
    refine ⟨l, hl, ?_⟩
    rw [if_pos hc]
    exact (filter_length_pos _ _).2 ⟨f, hf, by simp [hid, hp]⟩

theorem unpaidFineCount_pos_iff (cid : String) (db : DB) :
    0 < unpaidFineCount cid db ↔
      ∃ l ∈ db.loans, l.cardId = cid ∧
        ∃ f ∈ db.fines, f.loanId = l.loanId ∧ f.paid = false := by
  unfold unpaidFineCount
  constructor
  · intro h
    rcases (joinUnpaid_pos_iff (fun l => l.cardId == cid) _ _).1 h with
      ⟨l, hl, hc, f, hf, h1, h2⟩
    exact ⟨l, hl, by simpa using hc, f, hf, h1, h2⟩
  · rintro ⟨l, hl, hc, f, hf, h1, h2⟩
    exact (joinUnpaid_pos_iff (fun l => l.cardId == cid) _ _).2
      ⟨l, hl, by simpa using hc, f, hf, h1, h2⟩

theorem unpaidOpenFineCount_pos_iff (cid : String) (db : DB) :
    0 < unpaidOpenFineCount cid db ↔
      ∃ l ∈ db.loans, (l.cardId = cid ∧ l.dateIn = none) ∧
        ∃ f ∈ db.fines, f.loanId = l.loanId ∧ f.paid = false := by
  unfold unpaidOpenFineCount
  constructor
  · intro h
    rcases (joinUnpaid_pos_iff
        (fun l => l.cardId == cid && l.dateIn.isNone) _ _).1 h with
      ⟨l, hl, hc, f, hf, h1, h2⟩
    refine ⟨l, hl, ?_, f, hf, h1, h2⟩
    simpa [Option.isNone_iff_eq_none] using hc
  · rintro ⟨l, hl, ⟨hc1, hc2⟩, f, hf, h1, h2⟩
    exact (joinUnpaid_pos_iff
        (fun l => l.cardId == cid && l.dateIn.isNone) _ _).2
      ⟨l, hl, by simp [hc1, hc2], f, hf, h1, h2⟩

/-! ### Helper lemmas about `fineFor` and the recomputation sweep -/

theorem fineFor_append_single (n : Nat) (fs : List Fine) (f0 : Fine) :
    fineFor n (fs ++ [f0]) =
      (fineFor n fs).or (if f0.loanId = n then some f0 else none) := by
  induction fs with
  | nil => simp [fineFor]
  | cons g t ih =>
    by_cases hg : g.loanId = n
    · simp [fineFor, hg]
    · simp [fineFor, hg, ih]

theorem fineFor_map_update_ne (n m : Nat) (a : ℚ) (fs : List Fine)
    (h : n ≠ m) :
    fineFor n (fs.map (fun g =>
      if g.loanId = m then { g with amount := a } else g)) = fineFor n fs := by
  induction fs with
  | nil => rfl
  | cons g t ih =>
    simp only [List.map_cons]
    by_cases hm : g.loanId = m
    · simp [fineFor, hm, Ne.symm h, ih]
    · by_cases hn : g.loanId = n
      · simp [fineFor, hm, hn, h]
      · simp [fineFor, hm, hn, ih]

theorem fineFor_map_update_self (m : Nat) (a : ℚ) (fs : List Fine) :
    fineFor m (fs.map (fun g =>
      if g.loanId = m then { g with amount := a } else g)) =
      (fineFor m fs).map (fun f => { f with amount := a }) := by
  induction fs with
  | nil => rfl
  | cons g t ih =>
    simp only [List.map_cons]
    by_cases hm : g.loanId = m
    · simp [fineFor, hm]
    · simp [fineFor, hm, ih]

/-- A FINES row with another loan id is untouched by `applyFine`. -/
theorem applyFine_fineFor_ne (today : Date) (fs : List Fine) (l : Loan)
    (n : Nat) (h : l.loanId ≠ n) :
    fineFor n (applyFine today fs l) = fineFor n fs := by
  unfold applyFine
  by_cases hld : 0 < lateDays today l
  · rw [if_pos hld]
    cases hf : fineFor l.loanId fs with
    | none =>
      rw [fineFor_append_single, if_neg h, Option.or_none]
    | some f =>
      dsimp only
      by_cases hp : f.paid
      · rw [if_pos hp]
      · rw [if_neg hp]
        exact fineFor_map_update_ne n l.loanId _ fs (Ne.symm h)
  · rw [if_neg hld]

/-- One-step characterisation of `applyFine` at the loan's own id. -/
theorem applyFine_fineFor_eq (today : Date) (fs : List Fine) (l : Loan) :
    fineFor l.loanId (applyFine today fs l) =
      if 0 < lateDays today l then
        match fineFor l.loanId fs with
        | none => some { loanId := l.loanId,
                         amount := fineAmt (lateDays today l), paid := false }
        | some f => if f.paid then some f
                    else some { f with amount := fineAmt (lateDays today l) }
      else fineFor l.loanId fs := by
  unfold applyFine
  by_cases hld : 0 < lateDays today l
  · rw [if_pos hld, if_pos hld]
    cases hf : fineFor l.loanId fs with
    | none =>
      dsimp only
      rw [fineFor_append_single, hf]
      simp
    | some f =>
      dsimp only
      by_cases hp : f.paid
      · rw [if_pos hp, if_pos hp]
        exact hf
      · rw [if_neg hp, if_neg hp, fineFor_map_update_self, hf]
        rfl
  · rw [if_neg hld, if_neg hld]

/-- The recomputation sweep does not touch FINES rows whose loan id is not
among the processed loans. -/
theorem foldl_applyFine_ne (today : Date) (L : List Loan) (fs : List Fine)
    (n : Nat) (h : ∀ l ∈ L, l.loanId ≠ n) :
    fineFor n (L.foldl (applyFine today) fs) = fineFor n fs := by
  induction L generalizing fs with
  | nil => rfl
  | cons l T ih =>
    rw [List.foldl_cons, ih _ (fun x hx => h x (List.mem_cons_of_mem _ hx)),
        applyFine_fineFor_ne _ _ _ _ (h l (List.mem_cons_self _ _))]

/-- A paid FINES row survives any number of sweep steps unchanged. -/
theorem foldl_applyFine_paid (today : Date) (L : List Loan) (fs : List Fine)
    (n : Nat) (f : Fine) (hf : fineFor n fs = some f) (hp : f.paid = true) :
    fineFor n (L.foldl (applyFine today) fs) = some f := by
  induction L generalizing fs with
  | nil => exact hf
  | cons l T ih =>
    rw [List.foldl_cons]
    apply ih
    by_cases hn : l.loanId = n
    · subst hn
      rw [applyFine_fineFor_eq]
      by_cases hld : 0 < lateDays today l
      · rw [if_pos hld, hf]
        dsimp only
        rw [if_pos hp]
      · rw [if_neg hld]; exact hf
    · rw [applyFine_fineFor_ne _ _ _ _ hn]; exact hf

/-- Characterisation of the whole sweep at the id of a processed loan,
assuming loan ids are unique (the BOOK_LOANS primary key). -/
theorem foldl_applyFine_key (today : Date) (L : List Loan) (fs : List Fine)
    (l : Loan) (hnd : (L.map (fun g => g.loanId)).Nodup) (hl : l ∈ L) :
    fineFor l.loanId (L.foldl (applyFine today) fs) =
      if 0 < lateDays today l then
        match fineFor l.loanId fs with
        | none => some { loanId := l.loanId,
                         amount := fineAmt (lateDays today l), paid := false }
        | some f => if f.paid then some f
                    else some { f with amount := fineAmt (lateDays today l) }
      else fineFor l.loanId fs := by
  induction L generalizing fs with
  | nil => cases hl
  | cons a T ih =>
    rw [List.map_cons, List.nodup_cons] at hnd
    rcases List.mem_cons.1 hl with rfl | hmem
    · have h1 : ∀ x ∈ T, x.loanId ≠ l.loanId := by
        intro x hx e
        exact hnd.1 (e ▸ List.mem_map_of_mem _ hx)
      rw [List.foldl_cons, foldl_applyFine_ne today T _ l.loanId h1,
          applyFine_fineFor_eq]
    · have hne : a.loanId ≠ l.loanId := by
        intro e
        exact hnd.1 (e ▸ List.mem_map_of_mem _ hmem)
      rw [List.foldl_cons, ih _ hnd.2 hmem,
          applyFine_fineFor_ne today fs a l.loanId hne]

/-- With unique loan ids, `fineFor` finds exactly the member row. -/
theorem fineFor_of_mem_nodup (fs : List Fine) (f : Fine)
    (hnd : (fs.map (fun g => g.loanId)).Nodup) (hf : f ∈ fs) :
    fineFor f.loanId fs = some f := by
  induction fs with
  | nil => cases hf
  | cons g t ih =>
    rw [List.map_cons, List.nodup_cons] at hnd
    rcases List.mem_cons.1 hf with rfl | hmem
    · simp [fineFor]
    · have hne : g.loanId ≠ f.loanId := by
        intro e
        exact hnd.1 (e ▸ List.mem_map_of_mem _ hmem)
      rw [fineFor, if_neg hne]
      exact ih hnd.2 hmem

/-! ### Helper lemmas about `foldl max` (card-id allocation) -/

theorem le_foldl_max : ∀ (l : List Nat) (a : Nat), a ≤ l.foldl max a
  | [], a => Nat.le_refl a
  | x :: t, a => Nat.le_trans (Nat.le_max_left a x) (le_foldl_max t (max a x))

theorem mem_le_foldl_max : ∀ (l : List Nat) (a x : Nat), x ∈ l →
    x ≤ l.foldl max a
  | [], _, _, hx => absurd hx (List.not_mem_nil _)
  | y :: t, a, x, hx => by
    rcases List.mem_cons.1 hx with rfl | hm
    · exact Nat.le_trans (Nat.le_max_right a x) (le_foldl_max t _)
    · exact mem_le_foldl_max t (max a y) x hm

theorem foldl_max_le : ∀ (l : List Nat) (a m : Nat), a ≤ m →
    (∀ k ∈ l, k ≤ m) → l.foldl max a ≤ m
  | [], _, _, ha, _ => ha
  | x :: t, a, m, ha, h =>
    foldl_max_le t (max a x) m (max_le ha (h x (List.mem_cons_self _ _)))
      (fun k hk => h k (List.mem_cons_of_mem _ hk))

theorem foldl_max_eq (l : List Nat) (m : Nat) (hm : m ∈ l)
    (hub : ∀ k ∈ l, k ≤ m) : l.foldl max 0 = m :=
  Nat.le_antisymm (foldl_max_le l 0 m (Nat.zero_le m) hub)
    (mem_le_foldl_max l 0 m hm)

/-! ### Miscellaneous helpers -/

/-- A quarter-dollar amount is already rounded to two decimals. -/
theorem round2_quarter (n : Int) :
    round2 ((n : ℚ) * (25 / 100)) = fineAmt n := by
  unfold round2 fineAmt
  have h : ((n : ℚ) * (25 / 100)) * 100 = ((25 * n : Int) : ℚ) := by
    push_cast; ring
  rw [h, round_intCast]
  push_cast; ring

theorem map_id_of_eq {α : Type} (l : List α) (g : α → α)
    (h : ∀ x ∈ l, g x = x) : l.map g = l := by
  induction l with
  | nil => rfl
  | cons x t ih =>
    rw [List.map_cons, h x (List.mem_cons_self _ _),
        ih (fun y hy => h y (List.mem_cons_of_mem _ hy))]

/-! ### Claim theorems -/

/-- Claim C10: `checkin_loans` called with an empty list of loan ids
returns immediately and leaves the store unchanged, for any value of
today. -/
theorem checkin_loans_empty_noop (todayArg : Option Date) (sysToday : Date)
    (db : DB) : checkin_loans [] todayArg sysToday db = db := rfl

/-- Claim C8, counterexample: the fine-recomputation HTTP endpoint takes no
date argument and reads `date.today()` internally, so two runs on the
identical store with identical explicit arguments produce different final
states when the current date differs (here: wall-clock day 20 versus day
30 over a loan due on day 14). -/
theorem update_fines_api_wall_clock_dependence :
    update_fines_api 20 dbOverdueOpen ≠ update_fines_api 30 dbOverdueOpen := by
  have h20 : update_fines_api 20 dbOverdueOpen =
      { dbOverdueOpen with fines :=
          [{ loanId := 1, amount := fineAmt 6, paid := false }] } := rfl
  have h30 : update_fines_api 30 dbOverdueOpen =
      { dbOverdueOpen with fines :=
          [{ loanId := 1, amount := fineAmt 16, paid := false }] } := rfl
  rw [h20, h30]
  intro h
  have h2 : fineAmt 6 = fineAmt 16 := by
    have h1 := congrArg (fun d => d.fines) h
    simp only [dbOverdueOpen] at h1
    simp at h1
    exact h1
  norm_num [fineAmt] at h2

/-- Claim C8, amended: the CLI-level date-sensitive operations (checkout,
batch check-in, fine recomputation) accept today as an explicit optional
argument, and whenever that argument is supplied the result is independent
of the wall clock, so two runs with identical store state and identical
explicit arguments produce identical results regardless of the actual
current date.  (The HTTP router variants instead read the wall clock, see
the counterexample.) -/
theorem cli_ops_deterministic_given_today (isbn cid : String)
    (ids : List Nat) (t w1 w2 : Date) (db : DB) :
    checkout_book isbn cid (some t) w1 db =
      checkout_book isbn cid (some t) w2 db ∧
    checkin_loans ids (some t) w1 db = checkin_loans ids (some t) w2 db ∧
    update_fines (some t) w1 db = update_fines (some t) w2 db :=
  ⟨rfl, rfl, rfl⟩

/-- Claim C9: `pay_all_fines` for a borrower card id that has no unpaid
fine on an OPEN loan and no unpaid fine on a CLOSED loan (in particular a
card id with no borrower row or no fines at all) succeeds without error
and leaves the store, including every Fine row, unchanged. -/
theorem pay_all_fines_no_unpaid_noop (cid : String) (db : DB)
    (h1 : ¬∃ f ∈ db.fines, f.paid = false ∧ ∃ l ∈ db.loans,
      l.loanId = f.loanId ∧ l.cardId = cid ∧ l.dateIn = none)
    (h2 : ¬∃ f ∈ db.fines, f.paid = false ∧ ∃ l ∈ db.loans,
      l.loanId = f.loanId ∧ l.cardId = cid ∧ l.dateIn ≠ none) :
    pay_all_fines cid db = .ok db := by
  have hgate : ¬ 0 < unpaidOpenFineCount cid db := by
    intro hpos
    rcases (unpaidOpenFineCount_pos_iff cid db).1 hpos with
      ⟨l, hl, ⟨hc, ho⟩, f, hf, hid, hp⟩
    exact h1 ⟨f, hf, hp, l, hl, hid.symm, hc, ho⟩
  have hid : ∀ f ∈ db.fines,
      (if f.paid == false && db.loans.any (fun l =>
          l.loanId == f.loanId && l.cardId == cid && l.dateIn.isSome) then
        { f with paid := true }
      else f) = f := by
    intro f hf
    rw [if_neg]
    intro hcond
    simp only [Bool.and_eq_true, beq_iff_eq, List.any_eq_true,
      Option.isSome_iff_ne_none] at hcond
    rcases hcond with ⟨hp, l, hl, ⟨hlid, hcid⟩, hsome⟩
    exact h2 ⟨f, hf, hp, l, hl, hlid, hcid, hsome⟩
  unfold pay_all_fines
  rw [if_neg hgate, map_id_of_eq _ _ hid]

/-- Claim C9, witness: at a concrete card id with no borrower row and no
fines at all, `pay_all_fines` returns the unchanged store. -/
theorem pay_all_fines_no_unpaid_noop_witness :
    pay_all_fines "Z" dbMaxed = .ok dbMaxed :=
  pay_all_fines_no_unpaid_noop "Z" dbMaxed (by decide) (by decide)

/-- Claim C6: every successful checkout — through the API router or the
CLI module — inserts exactly one new loan row with `dateOut = today`,
`dueDate = today + 14`, `dateIn = none` at the end of the loan table,
leaves all pre-existing loan rows (and every other table) unchanged, and
returns the store's generated AUTO_INCREMENT identifier. -/
theorem checkout_success_inserts_loan (isbn cid : String)
    (today sysToday : Date) (db : DB) (lid : Nat) (db' : DB) :
    (checkout_api isbn cid today db = .ok (lid, db') →
      lid = db.nextLoanId ∧
      db'.loans = db.loans ++
        [{ loanId := lid, isbn := isbn, cardId := cid, dateOut := today,
           dueDate := today + 14, dateIn := none }] ∧
      db'.books = db.books ∧ db'.borrowers = db.borrowers ∧
      db'.fines = db.fines ∧ db'.nextLoanId = db.nextLoanId + 1) ∧
    (checkout_book isbn cid (some today) sysToday db = .ok (lid, db') →
      lid = db.nextLoanId ∧
      db'.loans = db.loans ++
        [{ loanId := lid, isbn := isbn, cardId := cid, dateOut := today,
           dueDate := today + 14, dateIn := none }] ∧
      db'.books = db.books ∧ db'.borrowers = db.borrowers ∧
      db'.fines = db.fines ∧ db'.nextLoanId = db.nextLoanId + 1) := by
  constructor
  · intro h
    unfold checkout_api at h
    split at h
    · exact absurd h (by simp)
    · split at h
      · exact absurd h (by simp)
      · split at h
        · exact absurd h (by simp)
        · split at h
          · exact absurd h (by simp)
          · split at h
            · exact absurd h (by simp)
            · simp only [Except.ok.injEq, Prod.mk.injEq] at h
              obtain ⟨rfl, rfl⟩ := h
              exact ⟨rfl, by simp [newLoan], rfl, rfl, rfl, rfl⟩
  · intro h
    unfold checkout_book at h
    simp only [Option.getD_some] at h
    split at h
    · exact absurd h (by simp)
    · split at h
      · exact absurd h (by simp)
      · split at h
        · exact absurd h (by simp)
        · simp only [Except.ok.injEq, Prod.mk.injEq] at h
          obtain ⟨rfl, rfl⟩ := h
          exact ⟨rfl, by simp [newLoan], rfl, rfl, rfl, rfl⟩

/-- Claim C6, witness: the successful API checkout of book "X" by borrower
ID000001 on day 5 against the concrete ready store. -/
theorem checkout_success_inserts_loan_witness :
    1 = dbReady.nextLoanId ∧
    dbReadyAfter.loans = dbReady.loans ++
      [{ loanId := 1, isbn := "X", cardId := "ID000001", dateOut := 5,
         dueDate := 5 + 14, dateIn := none }] ∧
    dbReadyAfter.books = dbReady.books ∧
    dbReadyAfter.borrowers = dbReady.borrowers ∧
    dbReadyAfter.fines = dbReady.fines ∧
    dbReadyAfter.nextLoanId = dbReady.nextLoanId + 1 :=
  (checkout_success_inserts_loan "X" "ID000001" 5 0 dbReady 1
    dbReadyAfter).1 rfl

/-! ### Boolean/propositional bridges for the gate predicates -/

theorem borrowers_any_iff (cid : String) (db : DB) :
    (db.borrowers.any (fun b => b.cardId == cid) = true) ↔
      ∃ b ∈ db.borrowers, b.cardId = cid := by
  simp [List.any_eq_true]

theorem books_any_iff (isbn : String) (db : DB) :
    (db.books.any (fun b => b.isbn == isbn) = true) ↔
      ∃ b ∈ db.books, b.isbn = isbn := by
  simp [List.any_eq_true]

theorem bookHasOpenLoan_iff (isbn : String) (db : DB) :
    bookHasOpenLoan isbn db = true ↔
      ∃ l ∈ db.loans, l.isbn = isbn ∧ l.dateIn = none := by
  simp [bookHasOpenLoan, List.any_eq_true, Option.isNone_iff_eq_none]

/-- Claim C5: a single check-in of a loan id that names no OPEN loan
(nonexistent or already closed) fails with LoanNotFoundOrClosed and, being
an error, writes nothing; the batch check-in never fails, silently skips
such ids, sets the closing date on exactly the OPEN loans in its list, and
leaves every other row and table unchanged. -/
theorem checkin_single_vs_batch (lid : Nat) (ids : List Nat)
    (todayArg : Option Date) (sysToday : Date) (db : DB) :
    (checkin_book lid sysToday db = .error .loanNotFoundOrClosed ↔
      ¬∃ l ∈ db.loans, l.loanId = lid ∧ l.dateIn = none) ∧
    ((checkin_loans ids todayArg sysToday db).books = db.books ∧
     (checkin_loans ids todayArg sysToday db).borrowers = db.borrowers ∧
     (checkin_loans ids todayArg sysToday db).fines = db.fines ∧
     (checkin_loans ids todayArg sysToday db).nextLoanId = db.nextLoanId ∧
     (checkin_loans ids todayArg sysToday db).loans.length =
       db.loans.length) ∧
    (∀ (i : Nat) (l : Loan), db.loans[i]? = some l →
      ((l.loanId ∈ ids ∧ l.dateIn = none) →
        (checkin_loans ids todayArg sysToday db).loans[i]? =
          some { l with dateIn := some (todayArg.getD sysToday) }) ∧
      ((l.loanId ∉ ids ∨ l.dateIn ≠ none) →
        (checkin_loans ids todayArg sysToday db).loans[i]? = some l)) := by
  refine ⟨?_, ?_, ?_⟩
  · unfold checkin_book
    by_cases hany :
        db.loans.any (fun l => l.loanId == lid && l.dateIn.isNone) = true
    · rw [if_pos hany]
      simp only [List.any_eq_true, Bool.and_eq_true, beq_iff_eq,
        Option.isNone_iff_eq_none] at hany
      exact iff_of_false (by simp) (not_not_intro hany)
    · rw [if_neg hany]
      simp only [List.any_eq_true, Bool.and_eq_true, beq_iff_eq,
        Option.isNone_iff_eq_none] at hany
      exact iff_of_true rfl hany
  · unfold checkin_loans
    by_cases he : ids.isEmpty
    · rw [if_pos he]
      exact ⟨rfl, rfl, rfl, rfl, rfl⟩
    · rw [if_neg he]
      exact ⟨rfl, rfl, rfl, rfl, by simp⟩
  · intro i l hil
    unfold checkin_loans
    by_cases he : ids.isEmpty
    · rw [if_pos he]
      have hids : ids = [] := List.isEmpty_iff.1 he
      subst hids
      constructor
      · rintro ⟨hmem, _⟩
        cases hmem
      · intro _
        exact hil
    · rw [if_neg he]
      dsimp only
      constructor
      · rintro ⟨hmem, hopen⟩
        rw [List.getElem?_map, hil, Option.map_some']
        have hcond : (ids.contains l.loanId && l.dateIn.isNone) = true := by
          rw [Bool.and_eq_true]
          exact ⟨List.elem_iff.2 hmem, Option.isNone_iff_eq_none.2 hopen⟩
        rw [if_pos hcond]
      · intro hskip
        rw [List.getElem?_map, hil, Option.map_some']
        rw [if_neg]
        intro hcond
        rw [Bool.and_eq_true] at hcond
        rcases hcond with ⟨hc1, hc2⟩
        rcases hskip with hnm | hne
        · exact hnm (List.elem_iff.1 hc1)
        · exact hne (Option.isNone_iff_eq_none.1 hc2)

/-- Claim C5, witness: in the concrete store, single check-in of the
already-closed loan 1 is rejected, while the batch applied to ids 2 and 5
closes the open loan 2 and leaves the closed loan 1 unchanged. -/
theorem checkin_single_vs_batch_witness :
    checkin_book 1 0 dbCheckin = .error .loanNotFoundOrClosed ∧
    (checkin_loans [2, 5] (some 30) 0 dbCheckin).loans[1]? =
      some { loanId := 2, isbn := "B2", cardId := "B", dateOut := 0,
             dueDate := 14, dateIn := some 30 } ∧
    (checkin_loans [2, 5] (some 30) 0 dbCheckin).loans[0]? =
      some { loanId := 1, isbn := "B1", cardId := "B", dateOut := 0,
             dueDate := 14, dateIn := some 10 } :=
  ⟨(checkin_single_vs_batch 1 [2, 5] (some 30) 0 dbCheckin).1.mpr
      (by decide),
   ((checkin_single_vs_batch 1 [2, 5] (some 30) 0 dbCheckin).2.2 1
      { loanId := 2, isbn := "B2", cardId := "B", dateOut := 0,
        dueDate := 14, dateIn := none } rfl).1 ⟨by decide, rfl⟩,
   ((checkin_single_vs_batch 1 [2, 5] (some 30) 0 dbCheckin).2.2 0
      { loanId := 1, isbn := "B1", cardId := "B", dateOut := 0,
        dueDate := 14, dateIn := some 10 } rfl).2 (Or.inr (by decide))⟩

/-- Claim C2: `payAll` fails with BooksStillOutError exactly when some
unpaid fine of the borrower belongs to a loan that is still OPEN (an error
writes nothing in this model); otherwise it succeeds and sets paid on
exactly the unpaid fines belonging to CLOSED loans of that borrower,
touching no other fine row and no other table, in one step. -/
theorem pay_all_fines_gate_and_effect (cid : String) (db : DB) :
    (pay_all_fines cid db = .error .booksStillOut ↔
      ∃ f ∈ db.fines, f.paid = false ∧
        ∃ l ∈ db.loans, l.loanId = f.loanId ∧ l.cardId = cid ∧
          l.dateIn = none) ∧
    (∀ db', pay_all_fines cid db = .ok db' →
      db'.books = db.books ∧ db'.borrowers = db.borrowers ∧
      db'.loans = db.loans ∧ db'.nextLoanId = db.nextLoanId ∧
      db'.fines.length = db.fines.length ∧
      ∀ (i : Nat) (f : Fine), db.fines[i]? = some f →
        ((f.paid = false ∧ ∃ l ∈ db.loans, l.loanId = f.loanId ∧
            l.cardId = cid ∧ l.dateIn ≠ none) →
          db'.fines[i]? = some { f with paid := true }) ∧
        ((f.paid = true ∨ ¬∃ l ∈ db.loans, l.loanId = f.loanId ∧
            l.cardId = cid ∧ l.dateIn ≠ none) →
          db'.fines[i]? = some f)) := by
  constructor
  · unfold pay_all_fines
    by_cases hg : 0 < unpaidOpenFineCount cid db
    · rw [if_pos hg]
      constructor
      · intro _
        rcases (unpaidOpenFineCount_pos_iff cid db).1 hg with
          ⟨l, hl, ⟨hc, ho⟩, f, hf, hid, hp⟩
        exact ⟨f, hf, hp, l, hl, hid.symm, hc, ho⟩
      · intro _
        rfl
    · rw [if_neg hg]
      constructor
      · intro h
        exact absurd h (by simp)
      · rintro ⟨f, hf, hp, l, hl, hid, hc, ho⟩
        exact absurd ((unpaidOpenFineCount_pos_iff cid db).2
          ⟨l, hl, ⟨hc, ho⟩, f, hf, hid.symm, hp⟩) hg
  · intro db' h
    unfold pay_all_fines at h
    split at h
    · exact absurd h (by simp)
    · simp only [Except.ok.injEq] at h
      subst h
      refine ⟨rfl, rfl, rfl, rfl, by simp, ?_⟩
      intro i f hif
      constructor
      · rintro ⟨hp, l, hl, hid, hc, ho⟩
        show (db.fines.map _)[i]? = _
        rw [List.getElem?_map, hif, Option.map_some']
        have hcond : (f.paid == false && db.loans.any (fun l =>
            l.loanId == f.loanId && l.cardId == cid && l.dateIn.isSome)) =
              true := by
          rw [Bool.and_eq_true]
          refine ⟨by simp [hp], ?_⟩
          refine List.any_eq_true.2 ⟨l, hl, ?_⟩
          simp only [Bool.and_eq_true, beq_iff_eq]
          exact ⟨⟨hid, hc⟩, Option.isSome_iff_ne_none.2 ho⟩
        rw [if_pos hcond]
      · intro hskip
        show (db.fines.map _)[i]? = _
        rw [List.getElem?_map, hif, Option.map_some']
        rw [if_neg]
        intro hcond
        rw [Bool.and_eq_true] at hcond
        rcases hcond with ⟨hc1, hc2⟩
        rcases List.any_eq_true.1 hc2 with ⟨l, hl, hlc⟩
        simp only [Bool.and_eq_true, beq_iff_eq] at hlc
        rcases hlc with ⟨⟨hid, hcc⟩, hsome⟩
        rcases hskip with hp | hne
        · rw [hp] at hc1
          exact absurd hc1 (by simp)
        · exact hne ⟨l, hl, hid, hcc, Option.isSome_iff_ne_none.1 hsome⟩

/-- Claim C2, witness: borrower "B" has an unpaid fine on the closed loan
1 and a fine-free open loan 2, so the gate passes and exactly that fine
becomes paid. -/
theorem pay_all_fines_gate_and_effect_witness :
    dbPayablePaid.fines[0]? =
      some { loanId := 1, amount := 3/2, paid := true } :=
  (((pay_all_fines_gate_and_effect "B" dbPayable).2 dbPayablePaid
      rfl).2.2.2.2.2 0 { loanId := 1, amount := 3/2, paid := false } rfl).1
    ⟨rfl, { loanId := 1, isbn := "B1", cardId := "B", dateOut := 0,
            dueDate := 14, dateIn := some 20 },
      by decide, rfl, rfl, by decide⟩

/-- Claim C4: a fine with paid = true is left untouched by the
recomputation sweep — its row (amount and paid flag) is unchanged — and
consequently running the sweep twice with the same today also leaves it
unchanged.  Uniqueness of fine loan ids is the FINES primary key. -/
theorem recompute_preserves_paid_fines (today : Date) (db : DB) (f : Fine)
    (hnd : (db.fines.map (fun g => g.loanId)).Nodup) (hf : f ∈ db.fines)
    (hp : f.paid = true) :
    fineFor f.loanId (recomputeFines today db).fines = some f ∧
    fineFor f.loanId
      (recomputeFines today (recomputeFines today db)).fines = some f := by
  have h0 : fineFor f.loanId db.fines = some f :=
    fineFor_of_mem_nodup _ _ hnd hf
  have h1 : fineFor f.loanId (recomputeFines today db).fines = some f :=
    foldl_applyFine_paid today db.loans db.fines _ f h0 hp
  exact ⟨h1, foldl_applyFine_paid today db.loans _ _ f h1 hp⟩

/-- Claim C4, witness: the paid fine of amount 1.25 on the five-days-late
loan survives one and two sweeps on day 100 unchanged. -/
theorem recompute_preserves_paid_fines_witness :
    fineFor 1 (recomputeFines 100 dbPaidFine).fines =
      some { loanId := 1, amount := 5/4, paid := true } ∧
    fineFor 1 (recomputeFines 100 (recomputeFines 100 dbPaidFine)).fines =
      some { loanId := 1, amount := 5/4, paid := true } :=
  recompute_preserves_paid_fines 100 dbPaidFine
    { loanId := 1, amount := 5/4, paid := true }
    (by decide) (List.mem_cons_self _ _) rfl

/-- Claim C3, counterexample: in a reachable store whose only loan is five
days late (lateDays = 5 > 0) but whose fine is already paid with the stale
amount 0.75, the sweep leaves the fine untouched, so after recompute the
loan's fine amount differs from lateDays x 0.25 rounded to 2 decimals
(1.25).  The claim as stated is therefore false for paid fines. -/
theorem recompute_stale_paid_fine_counterexample :
    lateDays 100 staleLoan = 5 ∧
    recomputeFines 100 dbStalePaid = dbStalePaid ∧
    fineFor staleLoan.loanId dbStalePaid.fines =
      some { loanId := 1, amount := 3/4, paid := true } ∧
    (3/4 : ℚ) ≠ round2 ((lateDays 100 staleLoan : ℚ) * (25 / 100)) := by
  refine ⟨rfl, rfl, rfl, ?_⟩
  rw [show lateDays 100 staleLoan = 5 from rfl, round2_quarter]
  norm_num [fineAmt]

/-- Claim C3, amended: after recompute(today), every loan with positive
lateDays whose fine row is absent or still unpaid has a fine of amount
lateDays x 0.25 rounded to 2 decimals (freshly created rows get
paid = false); a loan whose fine is already paid keeps it untouched (see
the counterexample), and for a loan with lateDays ≤ 0 no fine row is
created or modified. -/
theorem recompute_overdue_fine_amount (today : Date) (db : DB) (l : Loan)
    (hnd : (db.loans.map (fun g => g.loanId)).Nodup) (hl : l ∈ db.loans) :
    ((0 < lateDays today l) →
      (fineFor l.loanId db.fines = none →
        fineFor l.loanId (recomputeFines today db).fines =
          some { loanId := l.loanId,
                 amount := round2 ((lateDays today l : ℚ) * (25 / 100)),
                 paid := false }) ∧
      (∀ f : Fine, fineFor l.loanId db.fines = some f → f.paid = false →
        fineFor l.loanId (recomputeFines today db).fines =
          some { f with
                 amount := round2 ((lateDays today l : ℚ) * (25 / 100)) })) ∧
    (lateDays today l ≤ 0 →
      fineFor l.loanId (recomputeFines today db).fines =
        fineFor l.loanId db.fines) := by
  have hkey := foldl_applyFine_key today db.loans db.fines l hnd hl
  refine ⟨fun hpos => ⟨fun hnone => ?_, fun f hsome hp => ?_⟩,
    fun hle => ?_⟩
  · show fineFor l.loanId (db.loans.foldl (applyFine today) db.fines) = _
    rw [hkey, if_pos hpos, hnone, round2_quarter]
  · show fineFor l.loanId (db.loans.foldl (applyFine today) db.fines) = _
    rw [hkey, if_pos hpos, hsome, round2_quarter]
    dsimp only
    rw [if_neg (by simp [hp])]
  · show fineFor l.loanId (db.loans.foldl (applyFine today) db.fines) = _
    rw [hkey, if_neg (by omega)]

/-- Claim C3, witness: on day 20 the open loan due on day 14 is six days
late and had no fine row, so the sweep creates one with the rounded amount
6 x 0.25 and paid = false. -/
theorem recompute_overdue_fine_amount_witness :
    0 < lateDays 20 { loanId := 1, isbn := "B1", cardId := "B",
                      dateOut := 0, dueDate := 14, dateIn := none } ∧
    fineFor 1 (recomputeFines 20 dbOverdueOpen).fines =
      some { loanId := 1,
             amount := round2 ((lateDays 20
               { loanId := 1, isbn := "B1", cardId := "B", dateOut := 0,
                 dueDate := 14, dateIn := none } : ℚ) * (25 / 100)),
             paid := false } :=
  ⟨by decide,
   ((recompute_overdue_fine_amount 20 dbOverdueOpen
      { loanId := 1, isbn := "B1", cardId := "B", dateOut := 0,
        dueDate := 14, dateIn := none }
      (by decide) (List.mem_cons_self _ _)).1 (by decide)).1 rfl⟩

/-- Claim C1, counterexample: the CLI `checkout_book` performs no
borrower-existence check, so a checkout naming a card id with no BORROWER
row does not fail with BorrowerNotFound — at the business-rule layer it
proceeds to insert the loan (in the real store the insert would then be
rejected by the foreign key as an opaque storage error, still not
BorrowerNotFound). -/
theorem cli_checkout_missing_borrower_succeeds :
    emptyDB.borrowers = [] ∧
    checkout_book "X" "C9" (some 0) 0 emptyDB =
      .ok (1,
        { emptyDB with loans := [newLoan 1 "X" "C9" 0], nextLoanId := 2 }) :=
  ⟨rfl, rfl⟩

/-- Claim C1, amended: for the API router checkout the five precondition
checks run in the stated sequence — borrower existence, unpaid-fine gate,
active-loan count, book availability, book catalog existence — and the
first failing one determines the failure kind; in particular a checkout
naming a borrower id with no BORROWER row fails with BorrowerNotFound and
writes nothing.  (The CLI checkout performs only the middle three checks,
in that relative order; see the counterexample.) -/
theorem checkout_api_check_sequence (isbn cid : String) (today : Date)
    (db : DB) :
    ((¬∃ b ∈ db.borrowers, b.cardId = cid) →
      checkout_api isbn cid today db = .error .borrowerNotFound) ∧
    ((∃ b ∈ db.borrowers, b.cardId = cid) →
      (∃ l ∈ db.loans, l.cardId = cid ∧
        ∃ f ∈ db.fines, f.loanId = l.loanId ∧ f.paid = false) →
      checkout_api isbn cid today db = .error .unpaidFines) ∧
    ((∃ b ∈ db.borrowers, b.cardId = cid) →
      (¬∃ l ∈ db.loans, l.cardId = cid ∧
        ∃ f ∈ db.fines, f.loanId = l.loanId ∧ f.paid = false) →
      3 ≤ activeLoanCount cid db →
      checkout_api isbn cid today db = .error .maxActiveLoans) ∧
    ((∃ b ∈ db.borrowers, b.cardId = cid) →
      (¬∃ l ∈ db.loans, l.cardId = cid ∧
        ∃ f ∈ db.fines, f.loanId = l.loanId ∧ f.paid = false) →
      activeLoanCount cid db < 3 →
      (∃ l ∈ db.loans, l.isbn = isbn ∧ l.dateIn = none) →
      checkout_api isbn cid today db = .error .bookUnavailable) ∧
    ((∃ b ∈ db.borrowers, b.cardId = cid) →
      (¬∃ l ∈ db.loans, l.cardId = cid ∧
        ∃ f ∈ db.fines, f.loanId = l.loanId ∧ f.paid = false) →
      activeLoanCount cid db < 3 →
      (¬∃ l ∈ db.loans, l.isbn = isbn ∧ l.dateIn = none) →
      (¬∃ b ∈ db.books, b.isbn = isbn) →
      checkout_api isbn cid today db = .error .bookNotFound) := by
  refine ⟨?_, ?_, ?_, ?_, ?_⟩
  · intro h
    have hb : db.borrowers.any (fun b => b.cardId == cid) = false :=
      Bool.eq_false_iff.2 (fun hx => h ((borrowers_any_iff cid db).1 hx))
    unfold checkout_api
    rw [hb]
    rfl
  · intro hb hu
    have hb' : db.borrowers.any (fun b => b.cardId == cid) = true :=
      (borrowers_any_iff cid db).2 hb
    have hu' : 0 < unpaidFineCount cid db :=
      (unpaidFineCount_pos_iff cid db).2 hu
    unfold checkout_api
    rw [hb', if_neg (by simp), if_pos hu']
  · intro hb hu hm
    have hb' : db.borrowers.any (fun b => b.cardId == cid) = true :=
      (borrowers_any_iff cid db).2 hb
    have hu' : ¬ 0 < unpaidFineCount cid db :=
      fun hx => hu ((unpaidFineCount_pos_iff cid db).1 hx)
    unfold checkout_api
    rw [hb', if_neg (by simp), if_neg hu', if_pos hm]
  · intro hb hu hm hbook
    have hb' : db.borrowers.any (fun b => b.cardId == cid) = true :=
      (borrowers_any_iff cid db).2 hb
    have hu' : ¬ 0 < unpaidFineCount cid db :=
      fun hx => hu ((unpaidFineCount_pos_iff cid db).1 hx)
    have hbook' : bookHasOpenLoan isbn db = true :=
      (bookHasOpenLoan_iff isbn db).2 hbook
    unfold checkout_api
    rw [hb', if_neg (by simp), if_neg hu', if_neg (by omega),
        if_pos hbook']
  · intro hb hu hm hbook hcat
    have hb' : db.borrowers.any (fun b => b.cardId == cid) = true :=
      (borrowers_any_iff cid db).2 hb
    have hu' : ¬ 0 < unpaidFineCount cid db :=
      fun hx => hu ((unpaidFineCount_pos_iff cid db).1 hx)
    have hbook' : bookHasOpenLoan isbn db = false :=
      Bool.eq_false_iff.2 (fun hx => hbook ((bookHasOpenLoan_iff isbn db).1 hx))
    have hcat' : db.books.any (fun b => b.isbn == isbn) = false :=
      Bool.eq_false_iff.2 (fun hx => hcat ((books_any_iff isbn db).1 hx))
    unfold checkout_api
    rw [hb', if_neg (by simp), if_neg hu', if_neg (by omega), hbook',
        if_neg (by simp), hcat']
    rfl

/-- Claim C1, witness: each of the five failure kinds of the API checkout
realised on a concrete store: no borrower row, an unpaid fine, three open
loans, the book out to someone else, and a book absent from the catalog. -/
theorem checkout_api_check_sequence_witness :
    checkout_api "X" "ID000001" 0 emptyDB = .error .borrowerNotFound ∧
    checkout_api "X" "ID000001" 0 dbUnpaid = .error .unpaidFines ∧
    checkout_api "X" "ID000001" 0 dbMaxed = .error .maxActiveLoans ∧
    checkout_api "X" "ID000001" 0 dbUnavailable = .error .bookUnavailable ∧
    checkout_api "X" "ID000001" 0 dbNoBook = .error .bookNotFound :=
  ⟨(checkout_api_check_sequence "X" "ID000001" 0 emptyDB).1 (by decide),
   (checkout_api_check_sequence "X" "ID000001" 0 dbUnpaid).2.1
     (by decide)
     ⟨{ loanId := 1, isbn := "B1", cardId := "ID000001", dateOut := 0,
        dueDate := 14, dateIn := some 20 }, by decide, rfl,
      { loanId := 1, amount := 3/2, paid := false },
      List.mem_cons_self _ _, rfl, rfl⟩,
   (checkout_api_check_sequence "X" "ID000001" 0 dbMaxed).2.2.1
     (by decide) (by decide) (by decide),
   (checkout_api_check_sequence "X" "ID000001" 0 dbUnavailable).2.2.2.1
     (by decide) (by decide) (by decide) (by decide),
   (checkout_api_check_sequence "X" "ID000001" 0 dbNoBook).2.2.2.2
     (by decide) (by decide) (by decide) (by decide) (by decide)⟩

/-- Claim C7, counterexample: the CLI `create_borrower` allocates the new
card id numerically as MAX(Card_id) + 1 — on an empty BORROWER table the
first allocated identifier is the integer 1, whose rendering "1" is not
the tagged, zero-padded "ID000001" the claim states (that scheme lives
only in the API router, whose allocator indeed yields ID000001). -/
theorem cli_create_borrower_numeric_id_counterexample :
    cli_create_borrower "s1" "N" "A" "P" [] =
      .ok (1, [{ cardId := 1, ssn := "s1", bname := "N", address := "A",
                 phone := "P" }]) ∧
    toString 1 ≠ "ID000001" ∧
    generate_next_card_id [] = "ID000001" :=
  ⟨rfl, by decide, rfl⟩

/-- Claim C7, amended: the API borrower create allocates the card id by
scanning the existing identifiers matching the tagged format ID######,
taking the maximum numeric suffix, incrementing by one and zero-padding to
six digits behind the literal tag; when no borrowers exist the first
allocated id is ID000001.  (The CLI create_borrower instead uses the
numeric MAX + 1 scheme; see the counterexample.) -/
theorem card_id_allocation_api (cards : List String) (m : Nat)
    (ssn bn ad ph : String) (db : DB) :
    (cards.filterMap cardSuffix = [] →
      generate_next_card_id cards = "ID000001") ∧
    (m ∈ cards.filterMap cardSuffix →
      (∀ k ∈ cards.filterMap cardSuffix, k ≤ m) →
      generate_next_card_id cards = "ID" ++ pad6 (m + 1)) ∧
    (db.borrowers = [] → ssn ≠ "" → bn ≠ "" → ad ≠ "" → ph ≠ "" →
      api_create_borrower ssn bn ad ph db =
        .ok ("ID000001",
          { db with borrowers := [{ cardId := "ID000001", ssn := ssn,
                                    bname := bn, address := ad,
                                    phone := ph }] })) := by
  refine ⟨?_, ?_, ?_⟩
  · intro h
    unfold generate_next_card_id
    rw [h]
  · intro hm hub
    unfold generate_next_card_id
    cases hcs : cards.filterMap cardSuffix with
    | nil =>
      rw [hcs] at hm
      cases hm
    | cons n rest =>
      dsimp only
      rw [foldl_max_eq (n :: rest) m (by rw [← hcs]; exact hm)
        (fun k hk => hub k (by rw [hcs]; exact hk))]
  · intro h0 h1 h2 h3 h4
    unfold api_create_borrower
    rw [h0, if_neg (by simp [h1, h2, h3, h4]), if_neg (by simp)]
    rfl

/-- Claim C7, witness: with one matching card id ID000123 (and one junk
id) the next allocated id is ID000124; on the empty store the API create
yields ID000001. -/
theorem card_id_allocation_api_witness :
    generate_next_card_id ["junk"] = "ID000001" ∧
    generate_next_card_id ["ID000123", "junk"] = "ID" ++ pad6 (123 + 1) ∧
    api_create_borrower "s1" "N" "A" "P" emptyDB =
      .ok ("ID000001",
        { emptyDB with borrowers := [{ cardId := "ID000001", ssn := "s1",
                                       bname := "N", address := "A",
                                       phone := "P" }] }) :=
  ⟨(card_id_allocation_api ["junk"] 0 "x" "x" "x" "x" emptyDB).1
     (by decide),
   (card_id_allocation_api ["ID000123", "junk"] 123 "x" "x" "x" "x"
     emptyDB).2.1 (by decide) (by decide),
   (card_id_allocation_api [] 0 "s1" "N" "A" "P" emptyDB).2.2 rfl
     (by decide) (by decide) (by decide) (by decide)⟩
